import Mathlib

/-!
Shallow embedding of the adaptive chess-training engine
(`src/services/scheduler.ts`, `src/services/skillService.ts`,
`src/services/analysisService.ts` and the learning-loop service), together
with theorems settling the specification claims about it.

Modelling conventions:
* JavaScript numbers are embedded as exact rationals (`ℚ`); integer-valued
  quantities (retry counts, durations, ply indices) are `ℕ`.
* `Math.round` is Mathlib's `round` (both are `⌊x + 1/2⌋`).
* `x.toFixed(2)` followed by `parseFloat` is `toFixed2` below
  (round to the nearest multiple of 1/100, ties toward +∞, which is what
  ECMA `toFixed` prescribes via "pick the larger n").
* `Math.pow(10, ·)` (a transcendental the engine consults inside the
  logistic expectancy) is an oracle parameter `pow10 : ℚ → ℚ`; concrete
  instantiations below agree with the exact value of `10 ^ y` at every
  point the engine actually consults.
* `Math.random()` draws are an oracle `rand : Nat → Nat → Nat`;
  `rand a k % n` stands for `Math.floor(Math.random() * n)`, the k-th draw
  of retry attempt `a`.  Both range over `0 .. n-1`, so every execution of
  the source corresponds to some oracle and conversely.
* `Date.now()` is an explicit `now` argument.
* A thrown JavaScript `Error` that crosses the module boundary is the
  `Except.error` constructor carrying a `JsError` with the thrown message.
* The external chess-rules library (`chess.js`) is an oracle `ChessLib`;
  its answers (parsed SAN history, the FEN reached after a given number of
  plies, constructor acceptance of a FEN) are inputs to the generator.
-/

/-- Outcome enumeration (`DrillOutcome` in `types`): the normalized result
of a drill attempt. Members are exactly the five consulted by the
scheduler, the skill policy and the learning loop. -/
inductive DrillOutcome where
  | PERFECT
  | SLOW_SUCCESS
  | SUCCESS_WITH_HINT
  | FAILURE
  | ABANDONED
deriving DecidableEq

/-- Theme tags produced by the drill generator (`Theme` in `types`);
only the three members the generator assigns are modelled. -/
inductive Theme where
  | TACTICS
  | ADVANTAGE
  | ENDGAME
deriving DecidableEq

/-- Selection modes of the drill generator (`TrainingMode` in `types`). -/
inductive TrainingMode where
  | ANY
  | RANDOM_MOMENT
  | CRITICAL_POSITION
  | START_FROM_MOVE
  | ENDGAME_FINISH
deriving DecidableEq

/- ------------------------------------------------------------------
Scheduler (`src/services/scheduler.ts`)
------------------------------------------------------------------ -/

/-- Per-drill spaced-repetition state (`DrillSchedule` in `types`). -/
structure DrillSchedule where
  drillId : String
  nextDueAt : ℚ
  interval : ℚ
  repetition : ℕ
  easeFactor : ℚ
deriving DecidableEq

/-- Source `INITIAL_SCHEDULE_SETTINGS.initialEase` from `src/constants.ts`. -/
def initialEase : ℚ := 2.5

/-- Source `Sm2Scheduler.createInitialSchedule`; `Date.now()` is the
explicit `now` argument. -/
def createInitialSchedule (drillId : String) (now : ℚ) : DrillSchedule :=
  { drillId := drillId
    nextDueAt := now
    interval := 0
    repetition := 0
    easeFactor := initialEase }

/-- Source `Sm2Scheduler.mapOutcomeToGrade`. The `default` arm of the
source switch is unreachable because the five listed cases are the whole
enumeration. -/
def mapOutcomeToGrade (outcome : DrillOutcome) : ℕ :=
  match outcome with
  | .PERFECT => 5
  | .SLOW_SUCCESS => 4
  | .SUCCESS_WITH_HINT => 3
  | .FAILURE => 1
  | .ABANDONED => 0

/-- Source `Sm2Scheduler.calculateNext`. -/
def calculateNext (current : DrillSchedule) (outcome : DrillOutcome)
    (now : ℚ) : DrillSchedule :=
  let grade := mapOutcomeToGrade outcome
  let passState : ℚ × ℕ :=
    if 3 ≤ grade then
      (if current.repetition = 0 then (1 : ℚ)
       else if current.repetition = 1 then (6 : ℚ)
       else ((round (current.interval * current.easeFactor) : ℤ) : ℚ),
       current.repetition + 1)
    else (1, 0)
  let interval := passState.1
  let repetition := passState.2
  let ef := current.easeFactor +
    (0.1 - (5 - (grade : ℚ)) * (0.08 + (5 - (grade : ℚ)) * 0.02))
  let easeFactor := if ef < 1.3 then 1.3 else ef
  let nextDueAt := now + interval * 24 * 60 * 60 * 1000
  { drillId := current.drillId
    nextDueAt := nextDueAt
    interval := interval
    repetition := repetition
    easeFactor := easeFactor }

/- ------------------------------------------------------------------
Learning loop (outcome classifier)
------------------------------------------------------------------ -/

/-- Shape of the learning-loop configuration (`LearningContractConfig`). -/
structure LearningContractConfig where
  perfectTimeThresholdMs : ℕ
  maxRetriesAllowed : ℕ
  masteryThreshold : ℕ
  tiltFailureLimit : ℕ

/-- Source `CONTRACT_CONFIG` of the learning-loop service. -/
def CONTRACT_CONFIG : LearningContractConfig :=
  { perfectTimeThresholdMs := 15000
    maxRetriesAllowed := 1
    masteryThreshold := 80
    tiltFailureLimit := 3 }

/-- Source `LearningLoopService.evaluateAttempt`. -/
def evaluateAttempt (isCorrect : Bool) (durationMs : ℕ)
    (retryCount : ℕ) : DrillOutcome :=
  if isCorrect = false then
    if CONTRACT_CONFIG.maxRetriesAllowed ≤ retryCount then .FAILURE
    else .SUCCESS_WITH_HINT
  else if 0 < retryCount then .SUCCESS_WITH_HINT
  else if durationMs ≤ CONTRACT_CONFIG.perfectTimeThresholdMs then .PERFECT
  else .SLOW_SUCCESS

/-- Source `LearningLoopService.checkStopCondition`. The `theme` argument
is accepted and ignored, as in the source; `slice(-limit)` on a list of
length ≥ limit is `drop (length - limit)`. -/
def checkStopCondition (theme : Theme)
    (recentOutcomes : List DrillOutcome) : Bool :=
  if recentOutcomes.length < CONTRACT_CONFIG.tiltFailureLimit then false
  else
    let lastN := recentOutcomes.drop
      (recentOutcomes.length - CONTRACT_CONFIG.tiltFailureLimit)
    lastN.all (fun o => decide (o = DrillOutcome.FAILURE))

/- ------------------------------------------------------------------
Skill model (`src/services/skillService.ts`)
------------------------------------------------------------------ -/

/-- Per-theme proficiency state (`SkillState` in `types`). -/
structure SkillState where
  mastery : ℚ
  confidence : ℚ
  streak : ℕ
  lastPracticed : ℚ
deriving DecidableEq

/-- Rounding performed by `parseFloat(x.toFixed(2))` on the values the
policy produces: nearest multiple of 1/100, ties toward +∞ (Mathlib
`round` is `⌊x + 1/2⌋`, exactly the tie rule of ECMA `toFixed`). -/
def toFixed2 (x : ℚ) : ℚ := ((round (x * 100) : ℤ) : ℚ) / 100

/-- Source `AdvancedSkillPolicy.getDrillRating`. -/
def getDrillRating (difficulty : ℚ) : ℚ :=
  min 100 (max 10 (difficulty * 20))

/-- Source `AdvancedSkillPolicy.getExpectedScore`; `pow10` is the oracle
for `Math.pow(10, ·)`. -/
def getExpectedScore (pow10 : ℚ → ℚ) (userMastery drillRating : ℚ) : ℚ :=
  let diff := userMastery - drillRating
  1 / (1 + pow10 (-diff / 40))

/-- Source `AdvancedSkillPolicy.getPerformanceScore`. The `default` arm of
the source switch is unreachable because the five listed cases are the
whole enumeration. -/
def getPerformanceScore (outcome : DrillOutcome) : ℚ :=
  match outcome with
  | .PERFECT => 1
  | .SLOW_SUCCESS => 0.85
  | .SUCCESS_WITH_HINT => 0.5
  | .FAILURE => 0
  | .ABANDONED => 0

/-- Source `AdvancedSkillPolicy.update`, the body of the exported
`updateSkill`; `Date.now()` is the explicit `now` argument and `pow10`
the `Math.pow(10, ·)` oracle. -/
def updateSkill (pow10 : ℚ → ℚ) (currentState : SkillState)
    (outcome : DrillOutcome) (drillDifficulty : ℚ) (now : ℚ) : SkillState :=
  let drillRating := getDrillRating drillDifficulty
  let expectedScore := getExpectedScore pow10 currentState.mastery drillRating
  let actualScore := getPerformanceScore outcome
  let baseK : ℚ := 20
  let volatilityFactor := 1 - currentState.confidence * 0.5
  let kFactor := baseK * volatilityFactor
  let rawDelta := kFactor * (actualScore - expectedScore)
  let newMastery := max 0 (min 100 (currentState.mastery + rawDelta))
  let surprise := |actualScore - expectedScore|
  let adjustedConfidence :=
    if 0.5 < surprise then currentState.confidence - 0.1
    else currentState.confidence + 0.05
  let newConfidence := max 0 (min 1 adjustedConfidence)
  let newStreak := if 0.8 ≤ actualScore then currentState.streak + 1 else 0
  { mastery := toFixed2 newMastery
    confidence := toFixed2 newConfidence
    streak := newStreak
    lastPracticed := now }

/-- Source `createInitialSkill`. -/
def createInitialSkill : SkillState :=
  { mastery := 40, confidence := 0.2, streak := 0, lastPracticed := 0 }

/- ------------------------------------------------------------------
Drill generator (`src/services/analysisService.ts`)
------------------------------------------------------------------ -/

/-- Imported game record; only the fields the generator reads (`id`,
`pgn`) are modelled. -/
structure ChessGame where
  id : String
  pgn : String
deriving DecidableEq

/-- A FEN string split as the generator splits it: the piece-placement
field (`fen.split(' ')[0]`) and the remainder. -/
structure Fen where
  board : String
  rest : String
deriving DecidableEq

/-- Piece-placement field of `new Chess().fen()`, the canonical starting
arrangement. -/
def START_BOARD : String := "rnbqkbnr/pppppppp/8/8/8/8/PPPPPPPP/RNBQKBNR"

/-- Oracle for the external chess-rules library (`chess.js`); the
generator treats the library as authoritative.
* `loadPgn pgn` is the SAN history of `chess.loadPgn(cleanPgn(pgn))`
  followed by `chess.history({verbose:true})`: `none` when loading threw.
* `fenAt pgn n` is `chess.fen()` after loading that game and undoing
  moves until `n` plies remain on the board.
* `fenCtorOk fen` is whether `new Chess(fen)` succeeds.
* `startFen` is `new Chess().fen()` (the source's `GLOBAL_START_FEN`). -/
structure ChessLib where
  loadPgn : String → Option (List String)
  fenAt : String → Nat → Fen
  fenCtorOk : Fen → Bool
  startFen : Fen

/-- Options record of `generateDrillFromMode`; `none` models an absent
`startMove`. -/
structure GenOptions where
  startMove : Option ℕ := none
deriving DecidableEq

/-- A thrown JavaScript `Error` crossing the module boundary, carrying
its message. -/
structure JsError where
  message : String
deriving DecidableEq

/-- Generated drill (`Drill` in `types`), with the fields the generator
populates; `playedMoveSan` is optional because the source reads it with
optional chaining. -/
structure Drill where
  id : String
  sourceGameId : String
  fen : Fen
  theme : Theme
  goal : String
  solutionSan : List String
  playedMoveSan : Option String
  difficulty : ℕ
  explanation : String
deriving DecidableEq

/-- Name of a `TrainingMode` as interpolated into the drill id. -/
def modeName (mode : TrainingMode) : String :=
  match mode with
  | .ANY => "ANY"
  | .RANDOM_MOMENT => "RANDOM_MOMENT"
  | .CRITICAL_POSITION => "CRITICAL_POSITION"
  | .START_FROM_MOVE => "START_FROM_MOVE"
  | .ENDGAME_FINISH => "ENDGAME_FINISH"

/-- Source test `san.includes('x') || san.includes('+') || san.includes('#')`
used by the CRITICAL_POSITION scan. -/
def hasTacticalMark (san : String) : Bool :=
  san.contains 'x' || san.contains '+' || san.contains '#'

/-- Target-index / theme / goal selection: the `switch (mode)` of
`generateDrillFromMode`. The source initializes `targetIndex = 0`,
`theme = TACTICS`, `goal = "Find the best move"` before the switch; the
`default` arm (reached for `ANY`) keeps theme and goal and takes the
midpoint ply. `rand a 1` is the attempt's second `Math.random()` draw. -/
def selectTarget (mode : TrainingMode) (options : GenOptions)
    (rand : Nat → Nat → Nat) (a : Nat) (fullHistory : List String) :
    Nat × Theme × String :=
  match mode with
  | .START_FROM_MOVE =>
    let startMove :=
      match options.startMove with
      | some s => if s = 0 then 10 else s
      | none => 10
    (max 0 ((startMove - 1) * 2), Theme.TACTICS, "Find the best move")
  | .RANDOM_MOMENT =>
    let lo := 12
    let hi := max lo (fullHistory.length - 8)
    (rand a 1 % (hi - lo + 1) + lo, Theme.ADVANTAGE, "Find the best move")
  | .CRITICAL_POSITION =>
    let candidates := (List.range (fullHistory.length - 8)).filter
      (fun i => decide (12 ≤ i) && hasTacticalMark (fullHistory.getD i ""))
    let t :=
      if 0 < candidates.length then
        candidates.getD (rand a 1 % candidates.length) 0
      else fullHistory.length / 2
    (t, Theme.TACTICS, "Find the best move")
  | .ENDGAME_FINISH =>
    (max 0 (fullHistory.length - 20), Theme.ENDGAME, "Convert the endgame")
  | .ANY =>
    (fullHistory.length / 2, Theme.TACTICS, "Find the best move")

/-- One iteration of the generator's retry loop (attempt number `a`);
`none` is the source's `continue`. `rand a 0` picks the game. -/
def attemptDrill (lib : ChessLib) (games : List ChessGame)
    (mode : TrainingMode) (options : GenOptions)
    (rand : Nat → Nat → Nat) (now : ℕ) (a : Nat) : Option Drill :=
  let game := games.getD (rand a 0 % games.length) { id := "", pgn := "" }
  match lib.loadPgn game.pgn with
  | none => none
  | some fullHistory =>
    if fullHistory.length = 0 then none
    else if fullHistory.length < 12 then none
    else
      let sel := selectTarget mode options rand a fullHistory
      let targetIndex := max 0 (min sel.1 (fullHistory.length - 6))
      let startFen := lib.fenAt game.pgn targetIndex
      if mode ≠ TrainingMode.START_FROM_MOVE ∧
          startFen.board = lib.startFen.board then none
      else if lib.fenCtorOk startFen = false then none
      else
        let solutionMoves := (fullHistory.drop targetIndex).take 6
        if solutionMoves.length = 0 then none
        else
          some
            { id := "drill-" ++ modeName mode ++ "-" ++ game.id ++ "-" ++
                toString now
              sourceGameId := game.id
              fen := startFen
              theme := sel.2.1
              goal := sel.2.2
              solutionSan := solutionMoves
              playedMoveSan := fullHistory[targetIndex]?
              difficulty := 3
              explanation := "Generated from famous game analysis." }

/-- Message of the `Error` thrown on an empty pool. -/
def noGamesError : JsError := { message := "No games provided for analysis." }

/-- Message of the `Error` thrown when all 50 attempts are exhausted. -/
def exhaustedError : JsError :=
  { message :=
      "Failed to generate a valid drill. Please try again or check your game settings." }

/-- The generator's `while (attempts < maxAttempts)` loop, by fuel;
exhausting the fuel is the source's final `throw`. -/
def genLoop (lib : ChessLib) (games : List ChessGame) (mode : TrainingMode)
    (options : GenOptions) (rand : Nat → Nat → Nat) (now : ℕ) :
    Nat → Nat → Except JsError Drill
  | 0, _ => .error exhaustedError
  | fuel + 1, a =>
    match attemptDrill lib games mode options rand now a with
    | some d => .ok d
    | none => genLoop lib games mode options rand now fuel (a + 1)

/-- Source `generateDrillFromMode`: `Except.error` models a thrown
`Error` crossing the module boundary (the source has no non-throwing
failure value). -/
def generateDrillFromMode (lib : ChessLib) (games : List ChessGame)
    (mode : TrainingMode) (options : GenOptions)
    (rand : Nat → Nat → Nat) (now : ℕ) : Except JsError Drill :=
  if games.length = 0 then .error noGamesError
  else genLoop lib games mode options rand now 50 0

/- ------------------------------------------------------------------
Claim-side definitions and concrete fixtures
------------------------------------------------------------------ -/

/-- Classification rule as claim C5 states it, written from the claim
text with the configuration constants inlined. -/
def classifyOutcomeSpec (isCorrect : Bool) (durationMs retryCount : ℕ) :
    DrillOutcome :=
  if isCorrect = false then
    (if 1 ≤ retryCount then .FAILURE else .SUCCESS_WITH_HINT)
  else if 0 < retryCount then .SUCCESS_WITH_HINT
  else if durationMs ≤ 15000 then .PERFECT
  else .SLOW_SUCCESS

/-- Mastery value claim C8 asserts `updateSkill` returns, written from
the claim text: `clamp(mastery + kFactor * (actualScore - expectedScore),
0, 100)` with `kFactor = 20 * (1 - confidence * 0.5)`,
`expectedScore = 1 / (1 + 10 ^ (-(mastery - drillRating) / 40))` and
`drillRating = clamp(difficulty * 20, 10, 100)`. -/
def claimMastery (pow10 : ℚ → ℚ) (s : SkillState) (outcome : DrillOutcome)
    (difficulty : ℚ) : ℚ :=
  let drillRating := min 100 (max 10 (difficulty * 20))
  let expectedScore := 1 / (1 + pow10 (-(s.mastery - drillRating) / 40))
  let kFactor := 20 * (1 - s.confidence * 0.5)
  let delta := kFactor * (getPerformanceScore outcome - expectedScore)
  max 0 (min 100 (s.mastery + delta))

/-- Concrete `Math.pow(10, ·)` oracle: agrees with the exact value of
`10 ^ y` at every integer argument `y` — the only kind of argument the
counterexample below consults it at (`Math.pow(10, 1)` is exactly `10`
in IEEE arithmetic as well). -/
def pow10Int : ℚ → ℚ := fun y => (10 : ℚ) ^ y.num

/-- Concrete pre-state for the C8 counterexample. -/
def cexSkillState : SkillState :=
  { mastery := 20, confidence := 0, streak := 0, lastPracticed := 0 }

/-- Random oracle that always draws 0. -/
def randZero : Nat → Nat → Nat := fun _ _ => 0

/-- Pool member for the C1 counterexample: a game of only 3 plies. -/
def shortGame : ChessGame := { id := "g-short", pgn := "1. e4 e5 2. Nf3" }

/-- Chess-library oracle for the short-pool counterexample: every load
yields the 3-ply history `e4 e5 Nf3` of `shortGame`. -/
def shortLib : ChessLib :=
  { loadPgn := fun _ => some ["e4", "e5", "Nf3"]
    fenAt := fun _ _ => { board := "", rest := "" }
    fenCtorOk := fun _ => true
    startFen := { board := START_BOARD, rest := "w KQkq - 0 1" } }

/-- The 12-ply knight-shuffle game `1. Nf3 Nf6 2. Ng1 Ng8 3. Nf3 Nf6
4. Ng1 Ng8 5. Nf3 Nf6 6. Ng1 Ng8`: a legal game whose piece placement
returns to the canonical start after every 4th ply. -/
def knightGame : ChessGame :=
  { id := "g-knight"
    pgn := "1. Nf3 Nf6 2. Ng1 Ng8 3. Nf3 Nf6 4. Ng1 Ng8 5. Nf3 Nf6 6. Ng1 Ng8" }

/-- SAN history of `knightGame`. -/
def knightHist : List String :=
  ["Nf3", "Nf6", "Ng1", "Ng8", "Nf3", "Nf6", "Ng1", "Ng8", "Nf3", "Nf6", "Ng1", "Ng8"]

/-- Oracle answers of the chess library on `knightGame`: it parses to
`knightHist`, and after undoing to ply 4 (both knights back home) the
FEN has the canonical starting placement with only the move counters
advanced — a FEN the library's constructor accepts. -/
def knightLib : ChessLib :=
  { loadPgn := fun _ => some knightHist
    fenAt := fun _ i =>
      if i = 4 then { board := START_BOARD, rest := "w KQkq - 4 3" }
      else { board := "other", rest := "w KQkq - 0 1" }
    fenCtorOk := fun _ => true
    startFen := { board := START_BOARD, rest := "w KQkq - 0 1" } }

/-- The drill the generator returns on the knight-shuffle input with
`mode = START_FROM_MOVE`, `startMove = 3`: its position is the canonical
starting arrangement. -/
def knightDrill : Drill :=
  { id := "drill-START_FROM_MOVE-g-knight-0"
    sourceGameId := "g-knight"
    fen := { board := START_BOARD, rest := "w KQkq - 4 3" }
    theme := Theme.TACTICS
    goal := "Find the best move"
    solutionSan := ["Nf3", "Nf6", "Ng1", "Ng8", "Nf3", "Nf6"]
    playedMoveSan := some "Nf3"
    difficulty := 3
    explanation := "Generated from famous game analysis." }

/-- Pool member for the C9 witness: a 20-ply game. -/
def witGame : ChessGame := { id := "g-wit", pgn := "1. d4 d5 2. c4 e6" }

/-- SAN history the library reports for `witGame` (20 plies). -/
def witHist : List String :=
  ["d4", "d5", "c4", "e6", "Nc3", "Nf6", "Bg5", "Be7", "e3", "O-O",
   "Nf3", "Nbd7", "Rc1", "c6", "Bd3", "dxc4", "Bxc4", "Nd5", "Bxe7", "Qxe7"]

/-- Chess-library oracle for the C9 witness: a 20-ply history and a
middlegame FEN away from the canonical start. -/
def witLib : ChessLib :=
  { loadPgn := fun _ => some witHist
    fenAt := fun _ _ => { board := "middlegame", rest := "w - - 0 7" }
    fenCtorOk := fun _ => true
    startFen := { board := START_BOARD, rest := "w KQkq - 0 1" } }

/-- The drill the generator returns on the C9 witness input. -/
def witDrill : Drill :=
  { id := "drill-RANDOM_MOMENT-g-wit-7"
    sourceGameId := "g-wit"
    fen := { board := "middlegame", rest := "w - - 0 7" }
    theme := Theme.ADVANTAGE
    goal := "Find the best move"
    solutionSan := ["Rc1", "c6", "Bd3", "dxc4", "Bxc4", "Nd5"]
    playedMoveSan := some "Rc1"
    difficulty := 3
    explanation := "Generated from famous game analysis." }

/- ------------------------------------------------------------------
Helper lemmas
------------------------------------------------------------------ -/

/-- Helper: the source's ease-factor floor written as a `max`. -/
theorem floor13_eq_max (x : ℚ) : (if x < 1.3 then (1.3 : ℚ) else x) = max 1.3 x := by
  rcases lt_or_le x 1.3 with h | h
  · rw [if_pos h, max_eq_left h.le]
  · rw [if_neg (not_lt.mpr h), max_eq_right h]

/-- Helper: `toFixed2` maps a value between two integer bounds to a value
between the same bounds. -/
theorem toFixed2_bounds {x : ℚ} {m n : ℤ} (hm : (m : ℚ) ≤ x) (hn : x ≤ (n : ℚ)) :
    (m : ℚ) ≤ toFixed2 x ∧ toFixed2 x ≤ (n : ℚ) := by
  have hlow : m * 100 ≤ round (x * 100) := by
    rw [round_eq]
    have h1 : ((m * 100 : ℤ) : ℚ) ≤ x * 100 + 1 / 2 := by
      push_cast
      linarith
    calc m * 100 = ⌊((m * 100 : ℤ) : ℚ)⌋ := (Int.floor_intCast _).symm
      _ ≤ ⌊x * 100 + 1 / 2⌋ := Int.floor_le_floor h1
  have hhigh : round (x * 100) ≤ n * 100 := by
    rw [round_eq]
    have h1 : x * 100 + 1 / 2 ≤ ((n * 100 : ℤ) : ℚ) + 1 / 2 := by
      push_cast
      linarith
    have h2 := Int.floor_le_floor h1
    rwa [add_comm ((n * 100 : ℤ) : ℚ) (1 / 2), Int.floor_add_int,
      show ⌊(1 / 2 : ℚ)⌋ = 0 by norm_num, zero_add] at h2
  unfold toFixed2
  constructor
  · rw [le_div_iff₀ (by norm_num : (0 : ℚ) < 100)]
    exact_mod_cast hlow
  · rw [div_le_iff₀ (by norm_num : (0 : ℚ) < 100)]
    exact_mod_cast hhigh

/-- Helper: `toFixed2` of a value clamped to [0,100] stays in [0,100]. -/
theorem toFixed2_clamp100 (y : ℚ) :
    0 ≤ toFixed2 (max 0 (min 100 y)) ∧ toFixed2 (max 0 (min 100 y)) ≤ 100 := by
  have h := toFixed2_bounds (x := max 0 (min 100 y)) (m := 0) (n := 100)
    (by exact_mod_cast le_max_left _ _)
    (by exact_mod_cast max_le (by norm_num) (min_le_left _ _))
  exact_mod_cast h

/-- Helper: `toFixed2` of a value clamped to [0,1] stays in [0,1]. -/
theorem toFixed2_clamp1 (y : ℚ) :
    0 ≤ toFixed2 (max 0 (min 1 y)) ∧ toFixed2 (max 0 (min 1 y)) ≤ 1 := by
  have h := toFixed2_bounds (x := max 0 (min 1 y)) (m := 0) (n := 1)
    (by exact_mod_cast le_max_left _ _)
    (by exact_mod_cast max_le (by norm_num) (min_le_left _ _))
  exact_mod_cast h

/-- Helper: an attempt over a pool whose games all parse to fewer than 12
plies (or fail to parse) is rejected. -/
theorem attemptDrill_short_none (lib : ChessLib) (games : List ChessGame)
    (mode : TrainingMode) (options : GenOptions) (rand : Nat → Nat → Nat)
    (now : ℕ) (a : Nat) (hne : games ≠ [])
    (hshort : ∀ g ∈ games, ∀ h, lib.loadPgn g.pgn = some h → h.length < 12) :
    attemptDrill lib games mode options rand now a = none := by
  simp only [attemptDrill]
  have hlen : 0 < games.length := List.length_pos.mpr hne
  have hmem : games.getD (rand a 0 % games.length) { id := "", pgn := "" } ∈ games := by
    rw [List.getD_eq_getElem?_getD, List.getElem?_eq_getElem (Nat.mod_lt _ hlen)]
    exact List.getElem_mem _
  cases hl : lib.loadPgn ((games.getD (rand a 0 % games.length) { id := "", pgn := "" }).pgn) with
  | none => rfl
  | some fullHistory =>
    have h12 := hshort _ hmem _ hl
    by_cases h0 : fullHistory.length = 0
    · simp [h0]
    · simp [h0, h12]

/-- Helper: when every attempt is rejected, the retry loop ends in the
exhaustion throw. -/
theorem genLoop_all_none (lib : ChessLib) (games : List ChessGame)
    (mode : TrainingMode) (options : GenOptions) (rand : Nat → Nat → Nat)
    (now : ℕ) (fuel : Nat) :
    ∀ a, (∀ b, attemptDrill lib games mode options rand now b = none) →
      genLoop lib games mode options rand now fuel a = .error exhaustedError := by
  induction fuel with
  | zero => intro a hnone; rfl
  | succ n ih =>
    intro a hnone
    rw [genLoop, hnone a]
    exact ih (a + 1) hnone

/-- Helper: any drill a single attempt returns has a non-empty solution
and, outside START_FROM_MOVE mode, a position away from the canonical
start. -/
theorem attemptDrill_ok_invariants (lib : ChessLib) (games : List ChessGame)
    (mode : TrainingMode) (options : GenOptions) (rand : Nat → Nat → Nat)
    (now : ℕ) (a : Nat) (d : Drill)
    (h : attemptDrill lib games mode options rand now a = some d) :
    d.solutionSan ≠ [] ∧
    (mode ≠ TrainingMode.START_FROM_MOVE → d.fen.board ≠ lib.startFen.board) := by
  simp only [attemptDrill] at h
  split at h
  · simp at h
  · split at h
    · simp at h
    · split at h
      · simp at h
      · split at h
        · simp at h
        · split at h
          · simp at h
          · split at h
            · simp at h
            · rename_i hstart hctor hsol
              obtain rfl := (Option.some.injEq _ _).mp h
              refine ⟨?_, ?_⟩
              · intro hnil
                exact hsol (by simpa using congrArg List.length hnil)
              · intro hmode heq
                exact hstart ⟨hmode, heq⟩

/-- Helper: any drill the retry loop returns satisfies the same
invariants. -/
theorem genLoop_ok_invariants (lib : ChessLib) (games : List ChessGame)
    (mode : TrainingMode) (options : GenOptions) (rand : Nat → Nat → Nat)
    (now : ℕ) (fuel : Nat) :
    ∀ a d, genLoop lib games mode options rand now fuel a = .ok d →
      d.solutionSan ≠ [] ∧
      (mode ≠ TrainingMode.START_FROM_MOVE → d.fen.board ≠ lib.startFen.board) := by
  induction fuel with
  | zero => intro a d h; simp [genLoop] at h
  | succ n ih =>
    intro a d h
    rw [genLoop] at h
    cases hA : attemptDrill lib games mode options rand now a with
    | some d2 =>
      rw [hA] at h
      obtain rfl : d2 = d := by simpa using h
      exact attemptDrill_ok_invariants lib games mode options rand now a d2 hA
    | none =>
      rw [hA] at h
      exact ih (a + 1) d h

/- ------------------------------------------------------------------
Claim theorems
------------------------------------------------------------------ -/

/-- Claim C1, amended. The claim asserts generation failure is an
explicit returned GenerationFailure value, never a fault crossing the
module boundary; the source instead throws `Error` objects in both
failure paths (`throw new Error(...)` on an empty pool and after the 50
retry attempts are exhausted) and defines no GenerationFailure value at
all. Amended statement proved here: for every library oracle, random
oracle, mode and options, if the pool is empty, generation throws the
Error "No games provided for analysis."; and if every game in the pool
fails to parse or parses to fewer than 12 plies (a pool of only
too-short games), generation exhausts its 50 attempts and throws the
Error "Failed to generate a valid drill. Please try again or check your
game settings." — in this embedding `Except.error` is exactly a thrown
fault crossing the module boundary. -/
theorem generateDrill_failure_is_thrown (lib : ChessLib) (games : List ChessGame)
    (mode : TrainingMode) (options : GenOptions) (rand : Nat → Nat → Nat)
    (now : ℕ)
    (hshort : ∀ g ∈ games, ∀ h, lib.loadPgn g.pgn = some h → h.length < 12) :
    (games = [] →
      generateDrillFromMode lib games mode options rand now = .error noGamesError) ∧
    (games ≠ [] →
      generateDrillFromMode lib games mode options rand now = .error exhaustedError) := by
  constructor
  · intro hnil
    subst hnil
    rfl
  · intro hne
    unfold generateDrillFromMode
    rw [if_neg (by simpa [List.length_eq_zero] using hne)]
    exact genLoop_all_none lib games mode options rand now 50 0
      (fun b => attemptDrill_short_none lib games mode options rand now b hne hshort)

/-- Counterexample to claim C1 as stated: on a pool holding only the
3-ply game `shortGame`, `generateDrillFromMode` does not return an
explicit failure value — it raises the exhaustion `Error`
(`Except.error` embeds the source's `throw new Error(...)`), so
"returns GenerationFailure, not a thrown exception" is false on the
code. -/
theorem generateDrill_short_pool_throws :
    generateDrillFromMode shortLib [shortGame] TrainingMode.RANDOM_MOMENT {} randZero 0 =
      .error exhaustedError := by
  rfl

/-- Witness for `generateDrill_failure_is_thrown`: its hypotheses hold
for the concrete short-game pool, and both thrown-error conclusions
follow at concrete inputs. -/
theorem generateDrill_failure_is_thrown_witness :
    (∀ g ∈ [shortGame], ∀ h, shortLib.loadPgn g.pgn = some h → h.length < 12) ∧
    generateDrillFromMode shortLib [shortGame] TrainingMode.CRITICAL_POSITION {} randZero 0 =
      .error exhaustedError ∧
    generateDrillFromMode shortLib ([] : List ChessGame) TrainingMode.CRITICAL_POSITION {}
      randZero 0 = .error noGamesError := by
  have hshort : ∀ g ∈ [shortGame], ∀ h, shortLib.loadPgn g.pgn = some h → h.length < 12 := by
    intro g hg h hl
    have hh : h = ["e4", "e5", "Nf3"] := by
      simpa [shortLib] using hl.symm
    simp [hh]
  refine ⟨hshort, ?_, ?_⟩
  · exact (generateDrill_failure_is_thrown shortLib [shortGame] TrainingMode.CRITICAL_POSITION
      {} randZero 0 hshort).2 (by simp)
  · exact (generateDrill_failure_is_thrown shortLib [] TrainingMode.CRITICAL_POSITION
      {} randZero 0 (by simp)).1 rfl

/-- Claim C2: for every skill state with mastery in [0,100] and
confidence in [0,1], every outcome and every difficulty in 1..5 (and
every `Math.pow` oracle and clock value), the state returned by
`updateSkill` has mastery in [0,100] and confidence in [0,1]. -/
theorem updateSkill_bounds (pow10 : ℚ → ℚ) (s : SkillState)
    (outcome : DrillOutcome) (difficulty : ℚ) (now : ℚ)
    (hm0 : 0 ≤ s.mastery) (hm1 : s.mastery ≤ 100)
    (hc0 : 0 ≤ s.confidence) (hc1 : s.confidence ≤ 1)
    (hd : 1 ≤ difficulty) (hd5 : difficulty ≤ 5) :
    0 ≤ (updateSkill pow10 s outcome difficulty now).mastery ∧
    (updateSkill pow10 s outcome difficulty now).mastery ≤ 100 ∧
    0 ≤ (updateSkill pow10 s outcome difficulty now).confidence ∧
    (updateSkill pow10 s outcome difficulty now).confidence ≤ 1 :=
  ⟨(toFixed2_clamp100 _).1, (toFixed2_clamp100 _).2,
   (toFixed2_clamp1 _).1, (toFixed2_clamp1 _).2⟩

/-- Witness for `updateSkill_bounds` at the initial skill state with a
PERFECT outcome on a difficulty-3 drill. -/
theorem updateSkill_bounds_witness :
    (0 ≤ createInitialSkill.mastery ∧ createInitialSkill.mastery ≤ 100 ∧
     0 ≤ createInitialSkill.confidence ∧ createInitialSkill.confidence ≤ 1 ∧
     (1 : ℚ) ≤ 3 ∧ (3 : ℚ) ≤ 5) ∧
    (0 ≤ (updateSkill (fun _ => 1) createInitialSkill DrillOutcome.PERFECT 3 0).mastery ∧
     (updateSkill (fun _ => 1) createInitialSkill DrillOutcome.PERFECT 3 0).mastery ≤ 100 ∧
     0 ≤ (updateSkill (fun _ => 1) createInitialSkill DrillOutcome.PERFECT 3 0).confidence ∧
     (updateSkill (fun _ => 1) createInitialSkill DrillOutcome.PERFECT 3 0).confidence ≤ 1) := by
  refine ⟨by norm_num [createInitialSkill], ?_⟩
  exact updateSkill_bounds (fun _ => 1) createInitialSkill DrillOutcome.PERFECT 3 0
    (by norm_num [createInitialSkill]) (by norm_num [createInitialSkill])
    (by norm_num [createInitialSkill]) (by norm_num [createInitialSkill])
    (by norm_num) (by norm_num)

/-- Claim C3: for every input schedule, `calculateNext` with outcome
FAILURE yields repetition 0 and interval 1, regardless of the prior
interval and repetition. -/
theorem failure_resets_schedule (current : DrillSchedule) (now : ℚ) :
    (calculateNext current DrillOutcome.FAILURE now).repetition = 0 ∧
    (calculateNext current DrillOutcome.FAILURE now).interval = 1 := by
  constructor <;> simp [calculateNext, mapOutcomeToGrade]

/-- Claim C4: for every input schedule with easeFactor at least 1.3 and
every outcome, the returned easeFactor equals
`easeFactor + (0.1 - (5 - grade) * (0.08 + (5 - grade) * 0.02))` floored
at 1.3, the same formula on the pass and fail branches (the equation
holds for every outcome, hence on both branches), and it is never below
1.3. -/
theorem easeFactor_floored_formula (current : DrillSchedule)
    (outcome : DrillOutcome) (now : ℚ) (h : 1.3 ≤ current.easeFactor) :
    (calculateNext current outcome now).easeFactor =
      max 1.3 (current.easeFactor +
        (0.1 - (5 - (mapOutcomeToGrade outcome : ℚ)) *
          (0.08 + (5 - (mapOutcomeToGrade outcome : ℚ)) * 0.02))) ∧
    1.3 ≤ (calculateNext current outcome now).easeFactor := by
  have hmax := floor13_eq_max (current.easeFactor +
    (0.1 - (5 - (mapOutcomeToGrade outcome : ℚ)) *
      (0.08 + (5 - (mapOutcomeToGrade outcome : ℚ)) * 0.02)))
  constructor
  · simpa [calculateNext] using hmax
  · have heq : (calculateNext current outcome now).easeFactor =
      max 1.3 (current.easeFactor +
        (0.1 - (5 - (mapOutcomeToGrade outcome : ℚ)) *
          (0.08 + (5 - (mapOutcomeToGrade outcome : ℚ)) * 0.02))) := by
      simpa [calculateNext] using hmax
    rw [heq]
    exact le_max_left _ _

/-- Witness for `easeFactor_floored_formula` at the initial schedule
(easeFactor 2.5) with a PERFECT outcome. -/
theorem easeFactor_floored_formula_witness :
    (1.3 : ℚ) ≤ (createInitialSchedule "d" 0).easeFactor ∧
    (calculateNext (createInitialSchedule "d" 0) DrillOutcome.PERFECT 0).easeFactor =
      max 1.3 ((createInitialSchedule "d" 0).easeFactor +
        (0.1 - (5 - (mapOutcomeToGrade DrillOutcome.PERFECT : ℚ)) *
          (0.08 + (5 - (mapOutcomeToGrade DrillOutcome.PERFECT : ℚ)) * 0.02))) ∧
    1.3 ≤ (calculateNext (createInitialSchedule "d" 0) DrillOutcome.PERFECT 0).easeFactor := by
  have hef : (1.3 : ℚ) ≤ (createInitialSchedule "d" 0).easeFactor := by
    norm_num [createInitialSchedule, initialEase]
  have h := easeFactor_floored_formula (createInitialSchedule "d" 0) DrillOutcome.PERFECT 0 hef
  exact ⟨hef, h.1, h.2⟩

/-- Claim C5: the classifier maps every input triple exactly as claimed:
incorrect answers give FAILURE when at least one retry happened and
SUCCESS_WITH_HINT otherwise; correct answers after a retry give
SUCCESS_WITH_HINT regardless of duration; correct first-try answers give
PERFECT within 15000 ms and SLOW_SUCCESS beyond. -/
theorem evaluateAttempt_matches_claim (b : Bool) (d r : ℕ) :
    evaluateAttempt b d r = classifyOutcomeSpec b d r := rfl

/-- Claim C6: `checkStopCondition` returns true iff the outcome list has
at least 3 entries and its most recent 3 entries are all FAILURE;
including the claim's two examples. -/
theorem checkStopCondition_iff (t : Theme) (l : List DrillOutcome) :
    (checkStopCondition t l = true ↔
      3 ≤ l.length ∧ ∀ o ∈ l.drop (l.length - 3), o = DrillOutcome.FAILURE) ∧
    checkStopCondition Theme.TACTICS [DrillOutcome.PERFECT, DrillOutcome.FAILURE,
      DrillOutcome.FAILURE, DrillOutcome.FAILURE] = true ∧
    checkStopCondition Theme.TACTICS [DrillOutcome.FAILURE, DrillOutcome.FAILURE,
      DrillOutcome.PERFECT] = false := by
  refine ⟨?_, by decide, by decide⟩
  unfold checkStopCondition
  by_cases h : l.length < CONTRACT_CONFIG.tiltFailureLimit
  · have h3 : ¬ 3 ≤ l.length := by
      simpa [CONTRACT_CONFIG] using h
    simp [h, h3]
  · have h3 : 3 ≤ l.length := by
      have hle := not_lt.mp h
      simpa [CONTRACT_CONFIG] using hle
    simp [h, h3, List.all_eq_true, CONTRACT_CONFIG]

/-- Claim C7: starting from the initial schedule (interval 0,
repetition 0, easeFactor 2.5), three consecutive PERFECT outcomes give
the interval sequence 1, 6, 16, with easeFactor 2.6 after the first
update and 2.7 after the second, so the third interval is
round(6 * 2.7) = 16. -/
theorem three_perfect_interval_sequence :
    (calculateNext (createInitialSchedule "drill-1" 0) DrillOutcome.PERFECT 0).interval = 1 ∧
    (calculateNext (calculateNext (createInitialSchedule "drill-1" 0) DrillOutcome.PERFECT 0)
      DrillOutcome.PERFECT 0).interval = 6 ∧
    (calculateNext (calculateNext (calculateNext (createInitialSchedule "drill-1" 0)
      DrillOutcome.PERFECT 0) DrillOutcome.PERFECT 0) DrillOutcome.PERFECT 0).interval = 16 ∧
    (calculateNext (createInitialSchedule "drill-1" 0) DrillOutcome.PERFECT 0).easeFactor = 2.6 ∧
    (calculateNext (calculateNext (createInitialSchedule "drill-1" 0) DrillOutcome.PERFECT 0)
      DrillOutcome.PERFECT 0).easeFactor = 2.7 := by
  norm_num [calculateNext, createInitialSchedule, mapOutcomeToGrade, initialEase, round_eq]

/-- Claim C8, amended. The claim asserts the returned mastery equals
`clamp(mastery + delta, 0, 100)` exactly; the source additionally rounds
the clamped value to two decimal places (`parseFloat(x.toFixed(2))`), so
the exact equality fails. Amended statement proved here: the returned
mastery is exactly that clamped value rounded to two decimals, with
delta, kFactor, expectedScore and drillRating exactly as the claim
states them. -/
theorem updateSkill_mastery_rounded (pow10 : ℚ → ℚ) (s : SkillState)
    (outcome : DrillOutcome) (difficulty now : ℚ) :
    (updateSkill pow10 s outcome difficulty now).mastery =
      toFixed2 (claimMastery pow10 s outcome difficulty) := rfl

/-- Counterexample to claim C8 as stated: from mastery 20, confidence 0,
difficulty 3 and outcome FAILURE, the claimed formula gives
`20 - 20/11 = 200/11 = 18.1818...`, but the code returns the two-decimal
rounding 18.18 = 909/50, which differs. The `Math.pow` oracle is
consulted only at the integer exponent 1 where `pow10Int` equals the
exact `Math.pow(10, 1) = 10`. -/
theorem updateSkill_mastery_not_exact :
    (updateSkill pow10Int cexSkillState DrillOutcome.FAILURE 3 0).mastery = 909 / 50 ∧
    claimMastery pow10Int cexSkillState DrillOutcome.FAILURE 3 = 200 / 11 ∧
    (updateSkill pow10Int cexSkillState DrillOutcome.FAILURE 3 0).mastery ≠
      claimMastery pow10Int cexSkillState DrillOutcome.FAILURE 3 := by
  refine ⟨?_, ?_, ?_⟩ <;>
    norm_num [updateSkill, claimMastery, toFixed2, getDrillRating, getExpectedScore,
      getPerformanceScore, pow10Int, cexSkillState, round_eq]

/-- Claim C9, amended. The claim exempts only `START_FROM_MOVE` with
`startMove == 1` from the canonical-start prohibition; the source's
guard exempts the whole `START_FROM_MOVE` mode, whatever `startMove` is,
so a drill at the canonical starting arrangement can be returned with
`startMove = 3` (see the counterexample). Amended statement proved here:
whenever `generateDrillFromMode` returns a drill — for any pool, mode,
options and oracles — its solution sequence is non-empty, and its
position's piece placement differs from the canonical starting
arrangement unless `mode == START_FROM_MOVE`. -/
theorem generateDrill_drill_invariants (lib : ChessLib) (games : List ChessGame)
    (mode : TrainingMode) (options : GenOptions) (rand : Nat → Nat → Nat)
    (now : ℕ) (d : Drill)
    (h : generateDrillFromMode lib games mode options rand now = .ok d) :
    d.solutionSan ≠ [] ∧
    (mode ≠ TrainingMode.START_FROM_MOVE → d.fen.board ≠ lib.startFen.board) := by
  unfold generateDrillFromMode at h
  by_cases hnil : games.length = 0
  · rw [if_pos hnil] at h
    simp at h
  · rw [if_neg hnil] at h
    exact genLoop_ok_invariants lib games mode options rand now 50 0 d h

/-- Counterexample to claim C9 as stated: on the legal knight-shuffle
game, mode START_FROM_MOVE with `startMove = 3` (not 1) returns a drill
whose piece placement is exactly the canonical starting arrangement. -/
theorem generateDrill_start_position_counterexample :
    generateDrillFromMode knightLib [knightGame] TrainingMode.START_FROM_MOVE
      { startMove := some 3 } randZero 0 = .ok knightDrill ∧
    knightDrill.fen.board = knightLib.startFen.board ∧
    (3 : ℕ) ≠ 1 := by
  refine ⟨by rfl, rfl, by decide⟩

/-- Witness for `generateDrill_drill_invariants`: a concrete successful
generation in RANDOM_MOMENT mode whose drill satisfies both
invariants. -/
theorem generateDrill_drill_invariants_witness :
    generateDrillFromMode witLib [witGame] TrainingMode.RANDOM_MOMENT {} randZero 7 =
      .ok witDrill ∧
    witDrill.solutionSan ≠ [] ∧
    (TrainingMode.RANDOM_MOMENT ≠ TrainingMode.START_FROM_MOVE →
      witDrill.fen.board ≠ witLib.startFen.board) := by
  have hgen : generateDrillFromMode witLib [witGame] TrainingMode.RANDOM_MOMENT {} randZero 7 =
      .ok witDrill := by rfl
  have hinv := generateDrill_drill_invariants witLib [witGame] TrainingMode.RANDOM_MOMENT {}
    randZero 7 witDrill hgen
  exact ⟨hgen, hinv.1, hinv.2⟩

/-- Claim C10: for every input triple, the classifier never returns
ABANDONED — its result is always one of PERFECT, SLOW_SUCCESS,
SUCCESS_WITH_HINT or FAILURE. -/
theorem evaluateAttempt_never_abandoned (b : Bool) (d r : ℕ) :
    evaluateAttempt b d r ≠ DrillOutcome.ABANDONED ∧
    (evaluateAttempt b d r = DrillOutcome.PERFECT ∨
     evaluateAttempt b d r = DrillOutcome.SLOW_SUCCESS ∨
     evaluateAttempt b d r = DrillOutcome.SUCCESS_WITH_HINT ∨
     evaluateAttempt b d r = DrillOutcome.FAILURE) := by
  unfold evaluateAttempt
  cases b <;> simp <;> split_ifs <;> simp <;> omega
